import Mathlib

/-! mux-movies-api: the five handlers of `main.go` over the `movies` table.

The handlers of `main.go` are embedded as pure functions.  A handler takes

* the storage state its database handle gives access to (`DB`),
* the outcome the database reports for the one statement the handler may issue
  (`fault`: `none` when the statement is executed, `some e` when the driver
  answers with the error `e` and the statement has no effect),
* its request input (the `movieid` route variable, or the decoded body),

and returns an `Outcome`: the storage afterwards, the SQL statements it
issued, the envelopes it passed to `json.NewEncoder(writer).Encode`, and the
error it panicked with, if any.

The route table of `main` and the dispatch of requests over it follow the
handlers: `dispatch` gives the handler a request runs and the route variables
it is given, `Handler.serve` calls a handler on a request.

`setupDB` (loading `.env`, `sql.Open`) only produces the handle; the handlers
are embedded from the point where they hold it, so the `db` argument is the
database seen through the handle `setupDB` returned.  Logging and printing
to standard output are not part of the embedding.
-/

namespace MoviesApi

/-! ## Data model (`main.go`, lines 34-43) -/

/-- Movie of `main.go`: the JSON object with keys `movieid` and `moviename`. -/
structure Movie where
  MovieID : String
  MovieName : String
deriving DecidableEq, Repr

/-- JsonResponse of `main.go`.  The field `Type` of the source is `Type_` here
(`Type` is reserved).  `Data` is a Go slice: `none` is the nil slice, which is
what a struct literal that does not mention `Data` holds, and `some l` is a
non-nil slice with the elements `l`. -/
structure JsonResponse where
  Type_ : String
  Data : Option (List Movie)
  Message : String
deriving DecidableEq, Repr

/-- Go's `append(s, m)` on a slice of movies: appending to the nil slice gives a
non-nil slice of one element. -/
def goAppend (s : Option (List Movie)) (m : Movie) : Option (List Movie) :=
  some (s.getD [] ++ [m])

/-- The movies a slice holds (none for the nil slice). -/
def elems (s : Option (List Movie)) : List Movie :=
  s.getD []

/-- Errors a handler can meet: `sql.ErrNoRows`, the store rejecting a duplicate
`movieid`, and any other failure (connection, query, request parsing). -/
inductive Err where
  | errNoRows
  | uniqueViolation
  | other (msg : String)
deriving DecidableEq, Repr

/-! ## Storage -/

/-- One row of the table `movies`: the numeric id, `movieid`, `moviename`
(the three columns the handlers scan). -/
structure Row where
  id : Int
  movieid : String
  moviename : String
deriving DecidableEq, Repr

/-- Modelled from the spec: the storage state of the database collaborator, whose
table declaration is not part of the sources.  It is the single table `movies`
with columns (auto numeric id, `movieid` text, `moviename` text); `rows` lists
the rows in the storage's scan order and `nextId` is the next value of the
auto-incrementing id. -/
structure DB where
  rows : List Row
  nextId : Int
deriving DecidableEq, Repr

/-- The five SQL statements the handlers issue, with their arguments. -/
inductive Stmt where
  /-- The statement `SELECT * FROM movies`. -/
  | selectAll
  /-- The statement `SELECT * FROM movies WHERE movieid = $1`. -/
  | selectByMovieid (movieid : String)
  /-- The statement `INSERT INTO movies(movieid, moviename) VALUES($1, $2) RETURNING id`. -/
  | insertReturningId (movieid moviename : String)
  /-- The statement `INSERT INTO movies(movieid, moviename) VALUES($1, $2)` of `index.go`. -/
  | insert (movieid moviename : String)
  /-- The statement `DELETE FROM movies WHERE movieid = $1`. -/
  | deleteByMovieid (movieid : String)
  /-- The statement `DELETE FROM movies`. -/
  | deleteAll
deriving DecidableEq, Repr

/-- Modelled from the spec: select-all of the storage collaborator.  Without a
fault it yields every row in scan order. -/
def DB.query (db : DB) (fault : Option Err) : Except Err (List Row) :=
  match fault with
  | some e => .error e
  | none => .ok db.rows

/-- Modelled from the spec: select-by-movieid of the storage collaborator, as
consumed through `QueryRow(...).Scan`: the first row whose `movieid` is exactly
the argument, and `sql.ErrNoRows` when there is none. -/
def DB.queryRow (db : DB) (fault : Option Err) (movieid : String) : Except Err Row :=
  match fault with
  | some e => .error e
  | none =>
    match db.rows.find? (fun r => r.movieid == movieid) with
    | some r => .ok r
    | none => .error Err.errNoRows

/-- Modelled from the spec: insert-with-returning-id of the storage collaborator.
Uniqueness of `movieid` is enforced by the store on insert: inserting a
`movieid` that a row already has is an error and changes nothing; otherwise the
row is added at the end of the scan order under a fresh id, which is returned. -/
def DB.insert (db : DB) (fault : Option Err) (movieid moviename : String) :
    Except Err (Int × DB) :=
  match fault with
  | some e => .error e
  | none =>
    if db.rows.any (fun r => r.movieid == movieid) then .error Err.uniqueViolation
    else .ok (db.nextId,
      { rows := db.rows ++ [{ id := db.nextId, movieid := movieid, moviename := moviename }],
        nextId := db.nextId + 1 })

/-- Modelled from the spec: delete-by-movieid of the storage collaborator.  It
removes every row whose `movieid` is exactly the argument, keeps the others in
their order, and succeeds also when no row matched. -/
def DB.execDelete (db : DB) (fault : Option Err) (movieid : String) : Except Err DB :=
  match fault with
  | some e => .error e
  | none => .ok { db with rows := db.rows.filter (fun r => !(r.movieid == movieid)) }

/-- Modelled from the spec: delete-all of the storage collaborator. -/
def DB.execDeleteAll (db : DB) (fault : Option Err) : Except Err DB :=
  match fault with
  | some e => .error e
  | none => .ok { db with rows := [] }

/-! ## Handlers (`main.go`) -/

/-- What one call of a handler did: the storage afterwards, the statements it
issued (in order), the envelopes it encoded to the response writer (in order),
and the error passed to `panic`, if the handler panicked. -/
structure Outcome where
  db : DB
  statements : List Stmt
  written : List JsonResponse
  panicked : Option Err
deriving DecidableEq, Repr

/-- A handler run that ended in `checkErr` panicking with `e` after issuing
`stmts`: nothing is encoded. -/
def panicWith (db : DB) (stmts : List Stmt) (e : Err) : Outcome :=
  { db := db, statements := stmts, written := [], panicked := some e }

/-- A handler run that reached its final `Encode(response)`. -/
def respond (db : DB) (stmts : List Stmt) (response : JsonResponse) : Outcome :=
  { db := db, statements := stmts, written := [response], panicked := none }

/-- getMovies of `main.go` (lines 81-109). -/
def getMovies (db : DB) (fault : Option Err) : Outcome :=
  match db.query fault with
  | .error e => panicWith db [Stmt.selectAll] e
  | .ok rows =>
    let movies : Option (List Movie) :=
      rows.foldl (fun ms r => goAppend ms { MovieID := r.movieid, MovieName := r.moviename }) none
    respond db [Stmt.selectAll]
      { Type_ := "success", Data := movies, Message := "Successfully got all movies from DB" }

/-- getMovie of `main.go` (lines 119-157); `movieID` is `params["movieid"]`. -/
def getMovie (db : DB) (fault : Option Err) (movieID : String) : Outcome :=
  if movieID = "" then
    respond db []
      { Type_ := "error", Data := none, Message := "You are missing the movieid parameter." }
  else
    match db.queryRow fault movieID with
    | .error _ =>
      respond db [Stmt.selectByMovieid movieID]
        { Type_ := "failure", Data := none,
          Message := "A movie with that movieid does not exist." }
    | .ok r =>
      let movies := goAppend none { MovieID := r.movieid, MovieName := r.moviename }
      respond db [Stmt.selectByMovieid movieID]
        { Type_ := "success", Data := movies, Message := "Successfully got movie from DB" }

/-- createMovie of `main.go` (lines 167-192).  `body` is the result of
`decoder.Decode(&m)`: `none` when decoding fails, `some m` for the decoded
Movie (a key missing from the JSON object leaves its field empty). -/
def createMovie (db : DB) (fault : Option Err) (body : Option Movie) : Outcome :=
  match body with
  | none => { db := db, statements := [], written := [], panicked := none }
  | some m =>
    if m.MovieID = "" ∨ m.MovieName = "" then
      respond db []
        { Type_ := "error", Data := none, Message := "You are missing movieID or movieName" }
    else
      match db.insert fault m.MovieID m.MovieName with
      | .error e => panicWith db [Stmt.insertReturningId m.MovieID m.MovieName] e
      | .ok (_, db') =>
        respond db' [Stmt.insertReturningId m.MovieID m.MovieName]
          { Type_ := "success", Data := none,
            Message := "The movie has been inserted successfully!" }

/-- deleteMovie of `main.go` (lines 202-229); `movieID` is `params["movieid"]`. -/
def deleteMovie (db : DB) (fault : Option Err) (movieID : String) : Outcome :=
  if movieID = "" then
    respond db []
      { Type_ := "error", Data := none, Message := "You are missing the movieid parameter." }
  else
    match db.execDelete fault movieID with
    | .error _ =>
      respond db [Stmt.deleteByMovieid movieID]
        { Type_ := "failure", Data := none, Message := "Failed to delete the specified movie." }
    | .ok db' =>
      respond db' [Stmt.deleteByMovieid movieID]
        { Type_ := "success", Data := none,
          Message := "The movie has been deleted successfully." }

/-- deleteAllMovies of `main.go` (lines 238-253). -/
def deleteAllMovies (db : DB) (fault : Option Err) : Outcome :=
  match db.execDeleteAll fault with
  | .error e => panicWith db [Stmt.deleteAll] e
  | .ok db' =>
    respond db' [Stmt.deleteAll]
      { Type_ := "success", Data := none,
        Message := "All movies have been deleted successfully!" }

/-! ## The stale variant of createMovie in `index.go` -/

namespace IndexGo

/-- createMovie of `index.go` (lines 127-153), which reads the movie from the
form values instead of a JSON body.  `parseErr` is the result of
`reader.ParseForm()`, and `movieID`, `movieName` are the form values.  Its
insert has no `RETURNING` clause, so after the insert is executed the `Scan` of
the returned row finds no row and `checkErr` panics with `sql.ErrNoRows`. -/
def createMovie (db : DB) (fault : Option Err) (parseErr : Option Err)
    (movieID movieName : String) : Outcome :=
  match parseErr with
  | some e => panicWith db [] e
  | none =>
    if movieID = "" ∨ movieName = "" then
      respond db []
        { Type_ := "error", Data := none, Message := "You are missing movieID or movieName" }
    else
      match db.insert fault movieID movieName with
      | .error e => panicWith db [Stmt.insert movieID movieName] e
      | .ok (_, db') => panicWith db' [Stmt.insert movieID movieName] Err.errNoRows

end IndexGo

/-! ## Serialisation of the envelope (`json.NewEncoder(writer).Encode`) -/

/-- Lower-case hexadecimal digit of `n < 16`. -/
def hexDigit (n : Nat) : Char :=
  if n < 10 then Char.ofNat (48 + n) else Char.ofNat (87 + n)

/-- The escape `\uXXXX` of the code point `n < 65536`. -/
def escapeUnicode (n : Nat) : String :=
  String.mk [Char.ofNat 92, 'u', hexDigit (n / 4096 % 16), hexDigit (n / 256 % 16),
    hexDigit (n / 16 % 16), hexDigit (n % 16)]

/-- How `encoding/json` writes one character of a string, with the HTML
escaping an `Encoder` has on by default: the quote and the backslash get a
backslash, newline, carriage return and tab their short escapes, the other
control characters, `<`, `>`, `&`, U+2028 and U+2029 the `\uXXXX` form. -/
def encodeChar (c : Char) : String :=
  if c = Char.ofNat 34 then String.mk [Char.ofNat 92, Char.ofNat 34]
  else if c = Char.ofNat 92 then String.mk [Char.ofNat 92, Char.ofNat 92]
  else if c = Char.ofNat 10 then String.mk [Char.ofNat 92, 'n']
  else if c = Char.ofNat 13 then String.mk [Char.ofNat 92, 'r']
  else if c = Char.ofNat 9 then String.mk [Char.ofNat 92, 't']
  else if c.toNat < 32 ∨ c = '<' ∨ c = '>' ∨ c = '&' ∨ c.toNat = 8232 ∨ c.toNat = 8233 then
    escapeUnicode c.toNat
  else String.singleton c

/-- A Go string as a JSON string. -/
def encodeString (s : String) : String :=
  "\"" ++ String.join (s.toList.map encodeChar) ++ "\""

/-- A Movie as a JSON object, keys in field order. -/
def encodeMovie (m : Movie) : String :=
  "\x7b\"movieid\":" ++ encodeString m.MovieID ++ ",\"moviename\":" ++
    encodeString m.MovieName ++ "\x7d"

/-- A slice of movies as JSON: `null` for the nil slice, an array otherwise. -/
def encodeData (d : Option (List Movie)) : String :=
  match d with
  | none => "null"
  | some l => "[" ++ String.intercalate "," (l.map encodeMovie) ++ "]"

/-- What `Encode(response)` writes: the JSON object of the envelope, keys in
field order, followed by a newline. -/
def encodeResponse (r : JsonResponse) : String :=
  "\x7b\"type\":" ++ encodeString r.Type_ ++ ",\"data\":" ++ encodeData r.Data ++
    ",\"message\":" ++ encodeString r.Message ++ "\x7d\n"

/-- The response body of a handler run: everything it encoded, in order. -/
def Outcome.body (o : Outcome) : String :=
  String.join (o.written.map encodeResponse)

/-- The outcomes of calling createMovie again and again with the same body, each
call on the storage the previous call left; `faults` lists, call by call, what
the database would report for the statement of that call. -/
def createMovieRepeated (db : DB) (body : Option Movie) : List (Option Err) → List Outcome
  | [] => []
  | f :: fs => createMovie db f body :: createMovieRepeated (createMovie db f body).db body fs

/-! ## Sample storage states -/

/-- The storage with no rows. -/
def dbEmpty : DB :=
  { rows := [], nextId := 1 }

/-- A storage holding the movie ("m0", "Alien"). -/
def dbAlien : DB :=
  { rows := [{ id := 1, movieid := "m0", moviename := "Alien" }], nextId := 2 }

/-- A storage holding the movie ("m1", "Inception") under the numeric id 7. -/
def dbInception : DB :=
  { rows := [{ id := 7, movieid := "m1", moviename := "Inception" }], nextId := 8 }

/-- A storage of two rows. -/
def dbTwo : DB :=
  { rows := [{ id := 1, movieid := "m1", moviename := "Inception" },
             { id := 2, movieid := "m2", moviename := "Heat" }],
    nextId := 3 }

/-- The movie a scanned row is turned into: the numeric id is dropped. -/
def Row.toMovie (r : Row) : Movie :=
  { MovieID := r.movieid, MovieName := r.moviename }

/-! ## Handlers as the router sees them -/

/-- The five handler functions `main` registers. -/
inductive Handler where
  | getMovies
  | getMovie
  | createMovie
  | deleteMovie
  | deleteAllMovies
deriving DecidableEq, Repr

/-- What a handler reads from the `*http.Request` it is given: the route
variables (`mux.Vars(reader)`) and the result of decoding the body as a Movie
(`none` when decoding fails). -/
structure Request where
  vars : List (String × String)
  body : Option Movie
deriving DecidableEq, Repr

/-- Indexing the map of route variables, `params[name]`: the empty string when
the map has no such key. -/
def muxVar (vars : List (String × String)) (name : String) : String :=
  (vars.lookup name).getD ""

/-- One call of a handler function on a request: getMovie and deleteMovie read
`params["movieid"]`, createMovie reads the body, the other two read nothing. -/
def Handler.serve (h : Handler) (db : DB) (fault : Option Err) (req : Request) : Outcome :=
  match h with
  | .getMovies => MoviesApi.getMovies db fault
  | .getMovie => MoviesApi.getMovie db fault (muxVar req.vars "movieid")
  | .createMovie => MoviesApi.createMovie db fault req.body
  | .deleteMovie => MoviesApi.deleteMovie db fault (muxVar req.vars "movieid")
  | .deleteAllMovies => MoviesApi.deleteAllMovies db fault

/-! ## Router (`main`, lines 255-282) -/

end MoviesApi

/-! ## Lemmas about the storage operations -/

namespace MoviesApi

/-- A failing statement is reported as a failure by every storage operation;
here for the single-row lookup: it succeeds only without a fault. -/
theorem queryRow_ok_iff (db : DB) (fault : Option Err) (movieid : String) (row : Row) :
    db.queryRow fault movieid = Except.ok row ↔
      fault = none ∧ db.rows.find? (fun r => r.movieid == movieid) = some row := by
  unfold DB.queryRow
  cases fault with
  | some e => simp
  | none =>
    cases h : db.rows.find? (fun r => r.movieid == movieid) with
    | none => simp
    | some r => simp

/-- The row a lookup finds has the requested movieid. -/
theorem find_movieid_eq (rows : List Row) (movieid : String) (row : Row)
    (h : rows.find? (fun r => r.movieid == movieid) = some row) : row.movieid = movieid := by
  have := List.find?_some h
  simpa using this

/-- When no row has the movieid the lookup finds nothing. -/
theorem find_absent (rows : List Row) (movieid : String)
    (h : ∀ r ∈ rows, r.movieid ≠ movieid) :
    rows.find? (fun r => r.movieid == movieid) = none := by
  rw [List.find?_eq_none]
  intro r hr
  simpa using h r hr

/-- When no row has the movieid, deleting by it keeps every row. -/
theorem filter_absent (rows : List Row) (movieid : String)
    (h : ∀ r ∈ rows, r.movieid ≠ movieid) :
    rows.filter (fun r => !(r.movieid == movieid)) = rows := by
  rw [List.filter_eq_self]
  intro r hr
  simpa using h r hr

/-- After deleting by a movieid no remaining row has it. -/
theorem filter_removes (rows : List Row) (movieid : String) :
    ∀ r ∈ rows.filter (fun r => !(r.movieid == movieid)), r.movieid ≠ movieid := by
  intro r hr
  have := (List.mem_filter.mp hr).2
  simpa using this

/-- The slice getMovies builds holds the movies of the rows, in order. -/
theorem elems_foldl_goAppend (rows : List Row) (s : Option (List Movie)) :
    elems (rows.foldl
      (fun ms r => goAppend ms { MovieID := r.movieid, MovieName := r.moviename }) s)
      = elems s ++ rows.map Row.toMovie := by
  induction rows generalizing s with
  | nil => simp
  | cons r rs ih =>
    rw [List.foldl_cons, ih]
    simp [elems, goAppend, Row.toMovie]

/-- getMovie on a non-empty movieid that no row has: the failure envelope,
whatever the database reports. -/
theorem getMovie_absent (db : DB) (fault : Option Err) (movieid : String)
    (hne : movieid ≠ "") (habs : ∀ r ∈ db.rows, r.movieid ≠ movieid) :
    getMovie db fault movieid =
      respond db [Stmt.selectByMovieid movieid]
        { Type_ := "failure", Data := none,
          Message := "A movie with that movieid does not exist." } := by
  unfold getMovie
  rw [if_neg hne]
  cases fault with
  | some e => simp [DB.queryRow]
  | none => simp [DB.queryRow, find_absent db.rows movieid habs]

/-- The movieids in storage stay non-empty under createMovie: it inserts only a
movie whose movieid passed the validation. -/
theorem createMovie_keeps_movieids_nonempty (db : DB) (fault : Option Err)
    (body : Option Movie) (hdb : ∀ r ∈ db.rows, r.movieid ≠ "") :
    ∀ r ∈ (createMovie db fault body).db.rows, r.movieid ≠ "" := by
  unfold createMovie
  cases body with
  | none => exact hdb
  | some m =>
    by_cases hm : m.MovieID = "" ∨ m.MovieName = ""
    · simp only [if_pos hm]
      exact hdb
    · simp only [if_neg hm]
      have hid : m.MovieID ≠ "" := fun hc => hm (Or.inl hc)
      cases fault with
      | some e => exact hdb
      | none =>
        by_cases hany : db.rows.any (fun r => r.movieid == m.MovieID) = true
        · simp only [DB.insert, hany, if_true]
          exact hdb
        · simp only [DB.insert, hany, respond]
          intro r hr
          rcases List.mem_append.mp hr with h | h
          · exact hdb r h
          · rw [List.mem_singleton] at h
            rw [h]
            exact hid

/-! ## The claims -/

/-- C1 (round trip): for every storage state and every pair (movieid, moviename)
with both fields non-empty, whenever createMovie with that pair ends with a
success envelope written, the getMovie for that movieid that follows on the
resulting storage (its lookup executed) writes exactly one envelope, of type
success, whose data is exactly the one movie (movieid, moviename). -/
theorem C1_create_then_get (db : DB) (fault : Option Err) (movieid moviename : String)
    (hid : movieid ≠ "") (hname : moviename ≠ "")
    (hok : (createMovie db fault (some { MovieID := movieid, MovieName := moviename })).written.map
      JsonResponse.Type_ = ["success"]) :
    (getMovie (createMovie db fault
        (some { MovieID := movieid, MovieName := moviename })).db none movieid).written =
      [{ Type_ := "success", Data := some [{ MovieID := movieid, MovieName := moviename }],
         Message := "Successfully got movie from DB" }] := by
  unfold createMovie at hok ⊢
  simp only [hid, hname, or_self, if_false] at hok ⊢
  cases fault with
  | some e => simp [DB.insert, panicWith] at hok
  | none =>
    by_cases hany : db.rows.any (fun r => r.movieid == movieid) = true
    · simp [DB.insert, hany, panicWith] at hok
    · have hnone : db.rows.find? (fun r => r.movieid == movieid) = none := by
        rw [List.find?_eq_none]
        intro r hr hr'
        exact hany (List.any_eq_true.mpr ⟨r, hr, hr'⟩)
      simp [DB.insert, hany, respond, getMovie, hid, DB.queryRow, List.find?_append, hnone,
        goAppend]

/-- C1 witness: on a storage holding one other movie, creating ("m1", "Inception")
succeeds and the following getMovie returns it. -/
theorem C1_create_then_get_witness :
    (getMovie (createMovie dbAlien none (some { MovieID := "m1", MovieName := "Inception" })).db
        none "m1").written =
      [{ Type_ := "success", Data := some [{ MovieID := "m1", MovieName := "Inception" }],
         Message := "Successfully got movie from DB" }] :=
  C1_create_then_get dbAlien none "m1" "Inception" (by decide) (by decide) (by decide)

/-- C2: for every storage state and every non-empty movieid for which the lookup
by exact match yields a row, getMovie writes exactly one envelope, of type
success, whose data holds exactly one Movie: its movieid is the requested one
and its moviename the name stored in the matched row; the numeric id of the
row does not appear. -/
theorem C2_getMovie_found (db : DB) (fault : Option Err) (movieid : String) (row : Row)
    (hne : movieid ≠ "") (hrow : db.queryRow fault movieid = Except.ok row) :
    (getMovie db fault movieid).written =
      [{ Type_ := "success", Data := some [{ MovieID := movieid, MovieName := row.moviename }],
         Message := "Successfully got movie from DB" }] := by
  have hid : row.movieid = movieid :=
    find_movieid_eq db.rows movieid row ((queryRow_ok_iff db fault movieid row).mp hrow).2
  unfold getMovie
  rw [if_neg hne, hrow]
  simp [respond, goAppend, hid]

/-- C2 witness: looking up "m1" in a storage that holds it under the numeric id 7. -/
theorem C2_getMovie_found_witness :
    (getMovie dbInception none "m1").written =
      [{ Type_ := "success", Data := some [{ MovieID := "m1", MovieName := "Inception" }],
         Message := "Successfully got movie from DB" }] :=
  C2_getMovie_found dbInception none "m1" { id := 7, movieid := "m1", moviename := "Inception" }
    (by decide) rfl

/-- C3: for every storage state and every non-empty movieid that no stored row
has, getMovie writes exactly one envelope: type failure, the message
"A movie with that movieid does not exist.", and no data.  This holds whatever
the database reports for the lookup. -/
theorem C3_getMovie_absent (db : DB) (fault : Option Err) (movieid : String)
    (hne : movieid ≠ "") (habs : ∀ r ∈ db.rows, r.movieid ≠ movieid) :
    (getMovie db fault movieid).written =
      [{ Type_ := "failure", Data := none,
         Message := "A movie with that movieid does not exist." }] := by
  rw [getMovie_absent db fault movieid hne habs]
  rfl

/-- C3 witness: getting "missing" from a storage that holds only "m1". -/
theorem C3_getMovie_absent_witness :
    (getMovie dbInception none "missing").written =
      [{ Type_ := "failure", Data := none,
         Message := "A movie with that movieid does not exist." }] :=
  C3_getMovie_absent dbInception none "missing" (by decide) (by decide)

/-- C4: for both path-parameter handlers, getMovie and deleteMovie, when the
movieid parameter is the empty string the handler writes exactly one envelope,
of type error with the message "You are missing the movieid parameter.",
issues no database statement and leaves storage unchanged (and does not
panic), for every storage state and whatever the database would report. -/
theorem C4_empty_movieid (db : DB) (fault : Option Err) :
    getMovie db fault "" =
        { db := db, statements := [], panicked := none,
          written := [{ Type_ := "error", Data := none,
                        Message := "You are missing the movieid parameter." }] } ∧
      deleteMovie db fault "" =
        { db := db, statements := [], panicked := none,
          written := [{ Type_ := "error", Data := none,
                        Message := "You are missing the movieid parameter." }] } := by
  constructor <;> rfl

/-- C5: for every storage state and every decoded Movie body in which movieid is
empty or moviename is empty (or both), createMovie writes exactly one envelope,
of type error, issues no database statement and leaves storage as it was,
whatever the database would report; called any number of times in a row, every
call has this same outcome, so the envelope is the same each time and storage
stays unchanged.  The form-based createMovie of `index.go` has the same
outcome on such a pair of form values. -/
theorem C5_create_missing_field (db : DB) (m : Movie) (fault : Option Err)
    (faults : List (Option Err)) (h : m.MovieID = "" ∨ m.MovieName = "") :
    createMovie db fault (some m) =
        { db := db, statements := [], panicked := none,
          written := [{ Type_ := "error", Data := none,
                        Message := "You are missing movieID or movieName" }] } ∧
      createMovieRepeated db (some m) faults =
        List.replicate faults.length
          { db := db, statements := [], panicked := none,
            written := [{ Type_ := "error", Data := none,
                          Message := "You are missing movieID or movieName" }] } ∧
      IndexGo.createMovie db fault none m.MovieID m.MovieName =
        { db := db, statements := [], panicked := none,
          written := [{ Type_ := "error", Data := none,
                        Message := "You are missing movieID or movieName" }] } := by
  have h1 : ∀ f, createMovie db f (some m) =
      { db := db, statements := [], panicked := none,
        written := [{ Type_ := "error", Data := none,
                      Message := "You are missing movieID or movieName" }] } := by
    intro f
    unfold createMovie
    simp only [if_pos h]
    rfl
  refine ⟨h1 fault, ?_, ?_⟩
  · induction faults with
    | nil => rfl
    | cons f fs ih =>
      rw [createMovieRepeated, h1 f]
      simp only [List.length_cons, List.replicate_succ]
      rw [ih]
  · unfold IndexGo.createMovie
    simp only [if_pos h]
    rfl

/-- C5 witness: creating a movie with an empty moviename three times on a storage
that holds one movie, the database being unreachable at the second call. -/
theorem C5_create_missing_field_witness :
    createMovieRepeated dbAlien (some { MovieID := "m1", MovieName := "" })
        [none, some (Err.other "connection refused"), none] =
      List.replicate 3
        { db := dbAlien, statements := [], panicked := none,
          written := [{ Type_ := "error", Data := none,
                        Message := "You are missing movieID or movieName" }] } :=
  (C5_create_missing_field dbAlien { MovieID := "m1", MovieName := "" } none
    [none, some (Err.other "connection refused"), none] (Or.inr rfl)).2.1

/-- C6: for every storage state in which the select succeeds, getMovies writes
exactly one envelope, with type success and the message "Successfully got all
movies from DB", whose data holds one Movie per stored row, in the scan order
of the storage, each with the movieid and moviename of its row; the number of
movies equals the number of rows. -/
theorem C6_getMovies_lists_rows (db : DB) (fault : Option Err) (rows : List Row)
    (hsel : db.query fault = Except.ok rows) :
    ∃ data : Option (List Movie),
      (getMovies db fault).written =
        [{ Type_ := "success", Data := data, Message := "Successfully got all movies from DB" }] ∧
      elems data = db.rows.map (fun r => { MovieID := r.movieid, MovieName := r.moviename }) ∧
      (elems data).length = db.rows.length := by
  have hrows : rows = db.rows := by
    unfold DB.query at hsel
    cases fault with
    | some e => simp at hsel
    | none => simpa using hsel.symm
  subst hrows
  refine ⟨db.rows.foldl
    (fun ms r => goAppend ms { MovieID := r.movieid, MovieName := r.moviename }) none,
    ?_, ?_, ?_⟩
  · unfold getMovies
    rw [hsel]
    rfl
  · rw [elems_foldl_goAppend]
    simp [elems, Row.toMovie]
  · rw [elems_foldl_goAppend]
    simp [elems]

/-- C6 witness: listing a storage of two rows. -/
theorem C6_getMovies_lists_rows_witness :
    ∃ data : Option (List Movie),
      (getMovies dbTwo none).written =
        [{ Type_ := "success", Data := data, Message := "Successfully got all movies from DB" }] ∧
      elems data = dbTwo.rows.map (fun r => { MovieID := r.movieid, MovieName := r.moviename }) ∧
      (elems data).length = dbTwo.rows.length :=
  C6_getMovies_lists_rows dbTwo none dbTwo.rows rfl

/-- C7 as stated fails: on the storage with no rows the body getMovies writes is
not the text with `"data":[]`. -/
theorem C7_empty_body_is_not_array :
    dbEmpty.rows = [] ∧
      (getMovies dbEmpty none).body ≠
        "\x7b\"type\":\"success\",\"data\":[],\"message\":\"Successfully got all movies from DB\"\x7d" ∧
      (getMovies dbEmpty none).body ≠
        "\x7b\"type\":\"success\",\"data\":[],\"message\":\"Successfully got all movies from DB\"\x7d\n" := by
  decide

/-- C7 amended: when storage holds zero rows and the select is executed, the body
getMovies writes is exactly the line
`{"type":"success","data":null,"message":"Successfully got all movies from DB"}`
ended by a newline: the data field is encoded as `null` (the slice of movies is
still nil when no row was appended). -/
theorem C7_empty_body_is_null (db : DB) (hempty : db.rows = []) :
    (getMovies db none).body =
      "\x7b\"type\":\"success\",\"data\":null,\"message\":\"Successfully got all movies from DB\"\x7d\n" := by
  unfold getMovies DB.query
  simp only [hempty]
  rfl

/-- C7 witness: the body on the sample empty storage. -/
theorem C7_empty_body_is_null_witness :
    (getMovies dbEmpty none).body =
      "\x7b\"type\":\"success\",\"data\":null,\"message\":\"Successfully got all movies from DB\"\x7d\n" :=
  C7_empty_body_is_null dbEmpty rfl

/-- C8: starting from empty storage, for every Movie with non-empty movieid and
moviename, createMovie (its insert executed) writes exactly one envelope, of
type success with no data, and the getMovies that follows (its select executed)
writes a success envelope whose data has exactly one entry, equal to the
created Movie. -/
theorem C8_create_then_list (db : DB) (m : Movie) (hempty : db.rows = [])
    (hid : m.MovieID ≠ "") (hname : m.MovieName ≠ "") :
    (createMovie db none (some m)).written =
        [{ Type_ := "success", Data := none,
           Message := "The movie has been inserted successfully!" }] ∧
      (getMovies (createMovie db none (some m)).db none).written =
        [{ Type_ := "success", Data := some [m],
           Message := "Successfully got all movies from DB" }] := by
  unfold createMovie
  simp [hid, hname, DB.insert, hempty, respond, getMovies, DB.query, goAppend]

/-- C8 witness: creating ("m1", "Inception") on the empty storage, then listing. -/
theorem C8_create_then_list_witness :
    (createMovie dbEmpty none (some { MovieID := "m1", MovieName := "Inception" })).written =
        [{ Type_ := "success", Data := none,
           Message := "The movie has been inserted successfully!" }] ∧
      (getMovies (createMovie dbEmpty none
          (some { MovieID := "m1", MovieName := "Inception" })).db none).written =
        [{ Type_ := "success", Data := some [{ MovieID := "m1", MovieName := "Inception" }],
           Message := "Successfully got all movies from DB" }] :=
  C8_create_then_list dbEmpty { MovieID := "m1", MovieName := "Inception" } rfl
    (by decide) (by decide)

/-- C9: for every storage state and every movieid present in it, after deleteMovie
for that movieid returns (its delete executed), a getMovie for the same
movieid writes exactly one envelope, of type failure (message "A movie with
that movieid does not exist.", no data), whatever the database reports for
the lookup.  A movieid the storage holds is not empty: createMovie stores only
non-empty ones (`createMovie_keeps_movieids_nonempty`) and the route variable
is never bound to an empty segment. -/
theorem C9_delete_then_get (db : DB) (fault : Option Err) (movieid : String)
    (hne : movieid ≠ "") (_hpresent : ∃ r ∈ db.rows, r.movieid = movieid) :
    (getMovie (deleteMovie db none movieid).db fault movieid).written =
      [{ Type_ := "failure", Data := none,
         Message := "A movie with that movieid does not exist." }] := by
  have hdb : (deleteMovie db none movieid).db =
      { db with rows := db.rows.filter (fun r => !(r.movieid == movieid)) } := by
    unfold deleteMovie
    rw [if_neg hne]
    rfl
  rw [hdb, getMovie_absent _ fault movieid hne (filter_removes db.rows movieid)]
  rfl

/-- C9 witness: deleting "m1" from the storage that holds it, then getting it. -/
theorem C9_delete_then_get_witness :
    (getMovie (deleteMovie dbInception none "m1").db none "m1").written =
      [{ Type_ := "failure", Data := none,
         Message := "A movie with that movieid does not exist." }] :=
  C9_delete_then_get dbInception none "m1" (by decide)
    ⟨{ id := 7, movieid := "m1", moviename := "Inception" }, by decide, rfl⟩

/-- C10: for every storage state and every non-empty movieid that no stored row
has, deleteMovie (its delete executed) writes exactly one envelope, of type
success, and storage is unchanged; the envelope is the one deleteMovie writes
on any other storage, in particular on one where a row was deleted. -/
theorem C10_delete_absent_succeeds (db db2 : DB) (movieid : String)
    (hne : movieid ≠ "") (habs : ∀ r ∈ db.rows, r.movieid ≠ movieid) :
    (deleteMovie db none movieid).written =
        [{ Type_ := "success", Data := none,
           Message := "The movie has been deleted successfully." }] ∧
      (deleteMovie db none movieid).db = db ∧
      (deleteMovie db2 none movieid).written = (deleteMovie db none movieid).written := by
  have hw : ∀ d : DB, (deleteMovie d none movieid).written =
      [{ Type_ := "success", Data := none,
         Message := "The movie has been deleted successfully." }] := by
    intro d
    unfold deleteMovie
    rw [if_neg hne]
    rfl
  refine ⟨hw db, ?_, by rw [hw db, hw db2]⟩
  unfold deleteMovie
  rw [if_neg hne]
  simp only [DB.execDelete, respond, filter_absent db.rows movieid habs]

/-- C10 witness: deleting "missing" from a storage that holds only "m1" leaves
it as it was, with the envelope of a delete that removed "m1". -/
theorem C10_delete_absent_succeeds_witness :
    (deleteMovie dbInception none "missing").written =
        [{ Type_ := "success", Data := none,
           Message := "The movie has been deleted successfully." }] ∧
      (deleteMovie dbInception none "missing").db = dbInception ∧
      (deleteMovie dbTwo none "missing").written =
        (deleteMovie dbInception none "missing").written :=
  C10_delete_absent_succeeds dbInception dbTwo "missing" (by decide) (by decide)

/-- C11: the documentation of deleteMovie promises a failure when no movie has
the movieid, but on a storage that holds only "m1" deleteMovie for "missing"
(its delete executed) writes the success envelope "The movie has been deleted
successfully.", not a failure envelope, and leaves the storage as it was. -/
theorem C11_delete_absent_writes_success :
    (∀ r ∈ dbInception.rows, r.movieid ≠ "missing") ∧
      (deleteMovie dbInception none "missing").written =
        [{ Type_ := "success", Data := none,
           Message := "The movie has been deleted successfully." }] ∧
      (deleteMovie dbInception none "missing").written.map JsonResponse.Type_ ≠ ["failure"] ∧
      (deleteMovie dbInception none "missing").db = dbInception := by
  decide

/-- C12: for every storage state, when the delete of deleteAllMovies succeeds the
handler writes exactly one envelope, with type success and the message
"All movies have been deleted successfully!", storage is left with zero rows,
and the getMovies that follows (its select executed) writes a success envelope
whose data holds no movie. -/
theorem C12_deleteAll_then_list (db db' : DB) (fault : Option Err)
    (hdel : db.execDeleteAll fault = Except.ok db') :
    (deleteAllMovies db fault).written =
        [{ Type_ := "success", Data := none,
           Message := "All movies have been deleted successfully!" }] ∧
      (deleteAllMovies db fault).db.rows = [] ∧
      (∃ data : Option (List Movie),
        (getMovies (deleteAllMovies db fault).db none).written =
          [{ Type_ := "success", Data := data,
             Message := "Successfully got all movies from DB" }] ∧
        elems data = []) := by
  have hf : fault = none := by
    cases fault with
    | none => rfl
    | some e => simp [DB.execDeleteAll] at hdel
  subst hf
  exact ⟨rfl, rfl, none, rfl, rfl⟩

/-- C12 witness: deleting all movies of a storage of two rows, then listing. -/
theorem C12_deleteAll_then_list_witness :
    (deleteAllMovies dbTwo none).written =
        [{ Type_ := "success", Data := none,
           Message := "All movies have been deleted successfully!" }] ∧
      (deleteAllMovies dbTwo none).db.rows = [] ∧
      (∃ data : Option (List Movie),
        (getMovies (deleteAllMovies dbTwo none).db none).written =
          [{ Type_ := "success", Data := data,
             Message := "Successfully got all movies from DB" }] ∧
        elems data = []) :=
  C12_deleteAll_then_list dbTwo { rows := [], nextId := 3 } none rfl

/-- C13 as stated fails: when the select of getMovies fails the handler panics
and writes no envelope (likewise createMovie when its insert fails and
deleteAllMovies when its delete fails), and createMovie given a body that does
not decode returns without writing one. -/
theorem C13_zero_envelopes :
    (Handler.getMovies.serve dbInception (some (Err.other "connection refused"))
        { vars := [], body := none }).written = [] ∧
      (Handler.deleteAllMovies.serve dbInception (some (Err.other "connection refused"))
        { vars := [], body := none }).written = [] ∧
      (Handler.createMovie.serve dbInception none
        { vars := [], body := some { MovieID := "m1", MovieName := "Heat" } }).written = [] ∧
      (Handler.createMovie.serve dbInception none { vars := [], body := none }).written = [] := by
  decide

/-- C13 amended: every handler, for every request, storage state and storage
outcome, writes at most one envelope; it writes exactly one whenever it does
not panic and, for createMovie, the body decodes; and it writes none when it
panics. -/
theorem C13_at_most_one_envelope (h : Handler) (db : DB) (fault : Option Err) (req : Request) :
    (h.serve db fault req).written.length ≤ 1 ∧
      ((h.serve db fault req).panicked = none →
        (h = Handler.createMovie → req.body ≠ none) →
        (h.serve db fault req).written.length = 1) ∧
      ((h.serve db fault req).panicked ≠ none → (h.serve db fault req).written = []) := by
  cases h with
  | getMovies =>
    simp only [Handler.serve, getMovies]
    cases db.query fault <;> simp [panicWith, respond]
  | getMovie =>
    simp only [Handler.serve, getMovie]
    split
    · simp [respond]
    · cases db.queryRow fault (muxVar req.vars "movieid") <;> simp [respond]
  | createMovie =>
    simp only [Handler.serve, createMovie]
    cases req.body with
    | none => simp
    | some m =>
      simp only
      split
      · simp [respond]
      · cases db.insert fault m.MovieID m.MovieName <;> simp [panicWith, respond]
  | deleteMovie =>
    simp only [Handler.serve, deleteMovie]
    split
    · simp [respond]
    · cases db.execDelete fault (muxVar req.vars "movieid") <;> simp [respond]
  | deleteAllMovies =>
    simp only [Handler.serve, deleteAllMovies]
    cases db.execDeleteAll fault <;> simp [panicWith, respond]

/-- C13 witness: getMovie for a stored movieid does not panic and writes exactly
one envelope. -/
theorem C13_at_most_one_envelope_witness :
    (Handler.getMovie.serve dbInception none
      { vars := [("movieid", "m1")], body := none }).written.length = 1 :=
  (C13_at_most_one_envelope Handler.getMovie dbInception none
    { vars := [("movieid", "m1")], body := none }).2.1 (by decide) (by decide)

/-- C15: every handler issues at most one SQL statement per request; exactly one
when its input passes validation (getMovies and deleteAllMovies always,
getMovie and deleteMovie for a non-empty movieid, createMovie for a decoded
body with non-empty movieid and moviename), and none when validation fails.
This holds for every storage state and whatever the database reports. -/
theorem C15_statements_per_request (db : DB) (fault : Option Err) :
    (∀ (h : Handler) (req : Request), (h.serve db fault req).statements.length ≤ 1) ∧
      (getMovies db fault).statements = [Stmt.selectAll] ∧
      (deleteAllMovies db fault).statements = [Stmt.deleteAll] ∧
      (∀ movieid : String, movieid ≠ "" →
        (getMovie db fault movieid).statements = [Stmt.selectByMovieid movieid] ∧
        (deleteMovie db fault movieid).statements = [Stmt.deleteByMovieid movieid]) ∧
      (∀ m : Movie, m.MovieID ≠ "" → m.MovieName ≠ "" →
        (createMovie db fault (some m)).statements =
          [Stmt.insertReturningId m.MovieID m.MovieName]) ∧
      (getMovie db fault "").statements = [] ∧
      (deleteMovie db fault "").statements = [] ∧
      (∀ m : Movie, m.MovieID = "" ∨ m.MovieName = "" →
        (createMovie db fault (some m)).statements = []) := by
  have hget : ∀ movieid : String, movieid ≠ "" →
      (getMovie db fault movieid).statements = [Stmt.selectByMovieid movieid] := by
    intro movieid hne
    simp only [getMovie, if_neg hne]
    cases db.queryRow fault movieid <;> rfl
  have hdel : ∀ movieid : String, movieid ≠ "" →
      (deleteMovie db fault movieid).statements = [Stmt.deleteByMovieid movieid] := by
    intro movieid hne
    simp only [deleteMovie, if_neg hne]
    cases db.execDelete fault movieid <;> rfl
  have hcreate : ∀ m : Movie, m.MovieID ≠ "" → m.MovieName ≠ "" →
      (createMovie db fault (some m)).statements =
        [Stmt.insertReturningId m.MovieID m.MovieName] := by
    intro m hid hname
    have hv : ¬ (m.MovieID = "" ∨ m.MovieName = "") := by simp [hid, hname]
    simp only [createMovie, if_neg hv]
    cases db.insert fault m.MovieID m.MovieName <;> rfl
  have hinvalid : ∀ m : Movie, m.MovieID = "" ∨ m.MovieName = "" →
      (createMovie db fault (some m)).statements = [] := by
    intro m hm
    simp only [createMovie, if_pos hm]
    rfl
  have hall : (getMovies db fault).statements = [Stmt.selectAll] := by
    simp only [getMovies]
    cases db.query fault <;> rfl
  have hdall : (deleteAllMovies db fault).statements = [Stmt.deleteAll] := by
    simp only [deleteAllMovies]
    cases db.execDeleteAll fault <;> rfl
  refine ⟨?_, hall, hdall, fun movieid hne => ⟨hget movieid hne, hdel movieid hne⟩,
    hcreate, rfl, rfl, hinvalid⟩
  intro h req
  cases h with
  | getMovies => simp [Handler.serve, hall]
  | deleteAllMovies => simp [Handler.serve, hdall]
  | getMovie =>
    by_cases hne : muxVar req.vars "movieid" = ""
    · simp [Handler.serve, getMovie, hne, respond]
    · simp [Handler.serve, hget _ hne]
  | deleteMovie =>
    by_cases hne : muxVar req.vars "movieid" = ""
    · simp [Handler.serve, deleteMovie, hne, respond]
    · simp [Handler.serve, hdel _ hne]
  | createMovie =>
    cases hb : req.body with
    | none => simp [Handler.serve, createMovie, hb]
    | some m =>
      by_cases hm : m.MovieID = "" ∨ m.MovieName = ""
      · simp [Handler.serve, hb, hinvalid m hm]
      · have hid : m.MovieID ≠ "" := fun hc => hm (Or.inl hc)
        have hname : m.MovieName ≠ "" := fun hc => hm (Or.inr hc)
        simp [Handler.serve, hb, hcreate m hid hname]

/-- C15 witness: with the database unreachable, getMovie for "m1" still issues
its one statement and createMovie with an empty moviename issues none. -/
theorem C15_statements_per_request_witness :
    (getMovie dbInception (some (Err.other "connection refused")) "m1").statements =
        [Stmt.selectByMovieid "m1"] ∧
      (createMovie dbInception (some (Err.other "connection refused"))
        (some { MovieID := "m2", MovieName := "" })).statements = [] :=
  ⟨((C15_statements_per_request dbInception
      (some (Err.other "connection refused"))).2.2.2.1 "m1" (by decide)).1,
    (C15_statements_per_request dbInception
      (some (Err.other "connection refused"))).2.2.2.2.2.2.2
      { MovieID := "m2", MovieName := "" } (Or.inr rfl)⟩

/-- Every envelope a handler writes, with what it carries: its type is one of
the three, a getMovies envelope is a success, a getMovie success holds exactly
one Movie, and every other envelope has nil data. -/
theorem envelope_shape (h : Handler) (db : DB) (fault : Option Err) (req : Request)
    (env : JsonResponse) (henv : env ∈ (h.serve db fault req).written) :
    (env.Type_ = "success" ∨ env.Type_ = "error" ∨ env.Type_ = "failure") ∧
      (h = Handler.getMovies → env.Type_ = "success") ∧
      (h = Handler.getMovie → env.Type_ = "success" → (elems env.Data).length = 1) ∧
      (¬ (env.Type_ = "success" ∧ (h = Handler.getMovie ∨ h = Handler.getMovies)) →
        env.Data = none) := by
  cases h with
  | getMovies =>
    simp only [Handler.serve, getMovies] at henv
    cases hq : db.query fault with
    | error e => simp [hq, panicWith] at henv
    | ok rows =>
      simp only [hq, respond, List.mem_singleton] at henv
      subst henv
      simp
  | getMovie =>
    simp only [Handler.serve, getMovie] at henv
    split at henv
    · simp only [respond, List.mem_singleton] at henv
      subst henv
      simp
    · cases hq : db.queryRow fault (muxVar req.vars "movieid") with
      | error e =>
        simp only [hq, respond, List.mem_singleton] at henv
        subst henv
        simp
      | ok r =>
        simp only [hq, respond, List.mem_singleton] at henv
        subst henv
        simp [elems, goAppend]
  | createMovie =>
    simp only [Handler.serve, createMovie] at henv
    cases hb : req.body with
    | none => simp [hb] at henv
    | some m =>
      simp only [hb] at henv
      split at henv
      · simp only [respond, List.mem_singleton] at henv
        subst henv
        simp
      · cases hq : db.insert fault m.MovieID m.MovieName with
        | error e => simp [hq, panicWith] at henv
        | ok r =>
          simp only [hq, respond, List.mem_singleton] at henv
          subst henv
          simp
  | deleteMovie =>
    simp only [Handler.serve, deleteMovie] at henv
    split at henv
    · simp only [respond, List.mem_singleton] at henv
      subst henv
      simp
    · cases hq : db.execDelete fault (muxVar req.vars "movieid") with
      | error e =>
        simp only [hq, respond, List.mem_singleton] at henv
        subst henv
        simp
      | ok r =>
        simp only [hq, respond, List.mem_singleton] at henv
        subst henv
        simp
  | deleteAllMovies =>
    simp only [Handler.serve, deleteAllMovies] at henv
    cases hq : db.execDeleteAll fault with
    | error e => simp [hq, panicWith] at henv
    | ok r =>
      simp only [hq, respond, List.mem_singleton] at henv
      subst henv
      simp

/-- C16: every envelope any handler writes, for every request, storage state and
storage outcome, has type "success", "error" or "failure"; its data holds a
Movie only in a success envelope of getMovie, which holds exactly one, or of
getMovies; every error or failure envelope and every success envelope of
createMovie, deleteMovie and deleteAllMovies carries no Movie (its data is
nil). -/
theorem C16_envelope_types_and_data (h : Handler) (db : DB) (fault : Option Err)
    (req : Request) (env : JsonResponse) (henv : env ∈ (h.serve db fault req).written) :
    (env.Type_ = "success" ∨ env.Type_ = "error" ∨ env.Type_ = "failure") ∧
      (elems env.Data ≠ [] →
        env.Type_ = "success" ∧
          ((h = Handler.getMovie ∧ (elems env.Data).length = 1) ∨ h = Handler.getMovies)) ∧
      (h = Handler.getMovie → env.Type_ = "success" → (elems env.Data).length = 1) ∧
      (env.Type_ = "error" ∨ env.Type_ = "failure" → env.Data = none) ∧
      (h = Handler.createMovie ∨ h = Handler.deleteMovie ∨ h = Handler.deleteAllMovies →
        env.Data = none) := by
  obtain ⟨htype, _, hone, hnil⟩ := envelope_shape h db fault req env henv
  refine ⟨htype, ?_, hone, ?_, ?_⟩
  · intro hdata
    by_cases hc : env.Type_ = "success" ∧ (h = Handler.getMovie ∨ h = Handler.getMovies)
    · refine ⟨hc.1, ?_⟩
      rcases hc.2 with hg | hg
      · exact Or.inl ⟨hg, hone hg hc.1⟩
      · exact Or.inr hg
    · rw [hnil hc] at hdata
      exact absurd rfl hdata
  · intro hef
    apply hnil
    rintro ⟨hs, _⟩
    rcases hef with he | he <;> rw [he] at hs <;> exact absurd hs (by decide)
  · intro hh
    apply hnil
    rintro ⟨_, hg | hg⟩ <;> rcases hh with hh | hh | hh <;> rw [hh] at hg <;>
      exact absurd hg (by decide)

/-- C16 witness: the envelope getMovie writes for a stored movieid is a success
that holds exactly one Movie. -/
theorem C16_envelope_types_and_data_witness :
    (elems (some [{ MovieID := "m1", MovieName := "Inception" }])).length = 1 :=
  (C16_envelope_types_and_data Handler.getMovie dbInception none
    { vars := [("movieid", "m1")], body := none }
    { Type_ := "success", Data := some [{ MovieID := "m1", MovieName := "Inception" }],
      Message := "Successfully got movie from DB" } (by decide)).2.2.1 rfl rfl

/-- C18 (frame of delete-by-id): for every storage state and every non-empty
movieid, after a successful deleteMovie the rows of the storage are exactly
the previous rows without those whose movieid is the given one: a row is
stored afterwards exactly when it was stored before and has a different
movieid, the remaining rows keep their relative order, and the id counter is
untouched.  A second deleteMovie with the same movieid (its delete executed)
writes the same success envelope and leaves the storage as the first left it. -/
theorem C18_delete_frame (db : DB) (fault : Option Err) (movieid : String)
    (hne : movieid ≠ "")
    (hsucc : (deleteMovie db fault movieid).written.map JsonResponse.Type_ = ["success"]) :
    (deleteMovie db fault movieid).db.rows =
        db.rows.filter (fun r => decide (r.movieid ≠ movieid)) ∧
      (∀ r : Row, r ∈ (deleteMovie db fault movieid).db.rows ↔
        r ∈ db.rows ∧ r.movieid ≠ movieid) ∧
      List.Sublist (deleteMovie db fault movieid).db.rows db.rows ∧
      (deleteMovie db fault movieid).db.nextId = db.nextId ∧
      (deleteMovie (deleteMovie db fault movieid).db none movieid).written =
        (deleteMovie db fault movieid).written ∧
      (deleteMovie (deleteMovie db fault movieid).db none movieid).db =
        (deleteMovie db fault movieid).db := by
  have hf : fault = none := by
    cases fault with
    | none => rfl
    | some e => simp [deleteMovie, hne, DB.execDelete, respond] at hsucc
  subst hf
  have hdb : (deleteMovie db none movieid).db =
      { db with rows := db.rows.filter (fun r => !(r.movieid == movieid)) } := by
    simp [deleteMovie, hne, DB.execDelete, respond]
  have hw : ∀ d : DB, (deleteMovie d none movieid).written =
      [{ Type_ := "success", Data := none,
         Message := "The movie has been deleted successfully." }] := by
    intro d
    simp [deleteMovie, hne, DB.execDelete, respond]
  have hfilter : db.rows.filter (fun r => !(r.movieid == movieid)) =
      db.rows.filter (fun r => decide (r.movieid ≠ movieid)) := by
    congr 1
    funext r
    by_cases hr : r.movieid = movieid <;> simp [hr]
  refine ⟨?_, ?_, ?_, ?_, ?_, ?_⟩
  · rw [hdb, ← hfilter]
  · intro r
    rw [hdb]
    simp [List.mem_filter]
  · rw [hdb]
    exact List.filter_sublist _
  · rw [hdb]
  · rw [hw, hw]
  · rw [hdb]
    simp [deleteMovie, hne, DB.execDelete, respond]

/-- C18 witness: deleting "m1" from the storage of "m1" and "m2" leaves exactly
the row of "m2", and deleting "m1" again changes nothing. -/
theorem C18_delete_frame_witness :
    (deleteMovie dbTwo none "m1").db.rows =
        dbTwo.rows.filter (fun r => decide (r.movieid ≠ "m1")) ∧
      (∀ r : Row, r ∈ (deleteMovie dbTwo none "m1").db.rows ↔
        r ∈ dbTwo.rows ∧ r.movieid ≠ "m1") ∧
      List.Sublist (deleteMovie dbTwo none "m1").db.rows dbTwo.rows ∧
      (deleteMovie dbTwo none "m1").db.nextId = dbTwo.nextId ∧
      (deleteMovie (deleteMovie dbTwo none "m1").db none "m1").written =
        (deleteMovie dbTwo none "m1").written ∧
      (deleteMovie (deleteMovie dbTwo none "m1").db none "m1").db =
        (deleteMovie dbTwo none "m1").db :=
  C18_delete_frame dbTwo none "m1" (by decide) (by decide)

/-! ## Lemmas about the router -/

end MoviesApi
